import Mathlib

/-!
Verification development for `check_format.py`, the submission format checker
for Exercise Sheet 4 (parameter-efficient fine-tuning).

The embedding models Python runtime values (`PyVal`), the fragment of the
Python expression AST that `ast.literal_eval` consumes (`LitExpr`), top-level
statements (`Stmt`), and the checker's functions `is_numeric`, `check_vector`,
`check_matrix`, `read_assignments_multiline`, `check_peft_config` and
`check_peft`, translated line by line from the source.

Modelling conventions:
- Python `int` is `Int`; Python `float` is modelled as an exact rational
  (`Rat`); every value an actual Python float can take has a power-of-two
  denominator, so its decimal expansion is finite and `floatRepr` below
  renders it exactly.  No claim depends on float rounding.
- Python `bool` is a distinct constructor, but `isinstance(x, int)` is true
  for booleans in Python (`bool` is a subclass of `int`), and the embedding
  reproduces that.
- Python `dict` preserves insertion order and, on re-assignment of an
  existing key, keeps the key's original position while replacing the value;
  `dictInsert` reproduces that.
-/

/-- Python runtime values produced by `ast.literal_eval` in this program. -/
inductive PyVal where
  | int : Int → PyVal
  | bool : Bool → PyVal
  | float : Rat → PyVal
  | complex : Rat → Rat → PyVal
  | str : String → PyVal
  | list : List PyVal → PyVal
  | tuple : List PyVal → PyVal
  | set : List PyVal → PyVal
  | dict : List (PyVal × PyVal) → PyVal
  | none : PyVal

/-- Python `type(v).__name__` for the values of `PyVal`. -/
def typeName : PyVal → String
  | PyVal.int _ => "int"
  | PyVal.bool _ => "bool"
  | PyVal.float _ => "float"
  | PyVal.complex _ _ => "complex"
  | PyVal.str _ => "str"
  | PyVal.list _ => "list"
  | PyVal.tuple _ => "tuple"
  | PyVal.set _ => "set"
  | PyVal.dict _ => "dict"
  | PyVal.none => "NoneType"

/-- The single-quote character, used by Python `repr` of strings. -/
def squote : String := String.singleton (Char.ofNat 39)

/-- Decimal rendering of a Python float modelled as a rational.  Actual
Python floats have power-of-two denominators, so the exact decimal expansion
is finite; `q.den = 2 ^ k` yields `k` fractional digits (Python prints the
shortest round-trip form, which for the exactly-representable values used in
this development coincides with the exact expansion). -/
def floatRepr (q : Rat) : String :=
  let d := q.den
  let k := Nat.log2 d
  if d = 2 ^ k then
    let mag := toString (q.num.natAbs * 5 ^ k)
    let s := if mag.length ≤ k then
               String.mk (List.replicate (k + 1 - mag.length) '0') ++ mag
             else mag
    let ip := s.take (s.length - k)
    let fp := if k = 0 then "0" else s.drop (s.length - k)
    (if q.num < 0 then "-" else "") ++ ip ++ "." ++ fp
  else toString q

/-- Python `repr` of a complex number (e.g. `2j`, `(1+2j)`). -/
def complexRepr (re im : Rat) : String :=
  if re = 0 then floatRepr im ++ "j"
  else "(" ++ floatRepr re ++ (if 0 ≤ im then "+" else "") ++ floatRepr im ++ "j)"

mutual

/-- Python `repr` of a value, as used in the checker's error messages. -/
def pyRepr : PyVal → String
  | PyVal.int n => toString n
  | PyVal.bool b => if b then "True" else "False"
  | PyVal.float q => floatRepr q
  | PyVal.complex re im => complexRepr re im
  | PyVal.str s => squote ++ s ++ squote
  | PyVal.list xs => "[" ++ String.intercalate ", " (pyReprList xs) ++ "]"
  | PyVal.tuple xs =>
      let parts := pyReprList xs
      if parts.length = 1 then "(" ++ String.intercalate ", " parts ++ ",)"
      else "(" ++ String.intercalate ", " parts ++ ")"
  | PyVal.set xs =>
      let parts := pyReprList xs
      if parts.isEmpty then "set()"
      else "\x7b" ++ String.intercalate ", " parts ++ "\x7d"
  | PyVal.dict kvs => "\x7b" ++ String.intercalate ", " (pyReprPairs kvs) ++ "\x7d"
  | PyVal.none => "None"

/-- Renders each element of a list with `pyRepr`. -/
def pyReprList : List PyVal → List String
  | [] => []
  | x :: xs => pyRepr x :: pyReprList xs

/-- Renders each `key: value` entry of a dict with `pyRepr`. -/
def pyReprPairs : List (PyVal × PyVal) → List String
  | [] => []
  | (k, v) :: rest => (pyRepr k ++ ": " ++ pyRepr v) :: pyReprPairs rest

end

/-- Python `str` of a value (identical to `repr` except on strings). -/
def pyStr : PyVal → String
  | PyVal.str s => s
  | v => pyRepr v

/-- Source `is_numeric(x)`: `isinstance(x, (int, float))`.  Note that in
Python `bool` is a subclass of `int`, so booleans satisfy this test. -/
def is_numeric : PyVal → Bool
  | PyVal.int _ => true
  | PyVal.bool _ => true
  | PyVal.float _ => true
  | _ => false

/-- Python `isinstance(v, int)` (true for booleans as well). -/
def isinstance_int : PyVal → Bool
  | PyVal.int _ => true
  | PyVal.bool _ => true
  | _ => false

/-- Integer value of a Python `int` (booleans count as 0/1).  Only invoked
under an `isinstance_int` guard, mirroring the source. -/
def pyIntVal : PyVal → Int
  | PyVal.int n => n
  | PyVal.bool b => if b then 1 else 0
  | _ => 0

/-- The `for i, el in enumerate(...)` scan of the source: index and value of
the first element failing `is_numeric`, starting the count at `i`. -/
def firstNonNumeric : List PyVal → Nat → Option (Nat × PyVal)
  | [], _ => Option.none
  | x :: xs, i => if is_numeric x then firstNonNumeric xs (i + 1) else some (i, x)

/-- Source `check_vector(vec, length)`: requires a list of exactly `length`
numeric elements; reports the shape violation or the first non-numeric
element. -/
def check_vector (vec : PyVal) (length : Nat) : Bool × String :=
  match vec with
  | PyVal.list xs =>
    if xs.length ≠ length then
      (false, "Expected a list of length " ++ toString length ++ ".")
    else
      match firstNonNumeric xs 0 with
      | some (i, el) =>
        (false, "Element at position " ++ toString i ++ " is not numeric: " ++ pyRepr el)
      | Option.none => (true, "")
  | _ => (false, "Expected a list of length " ++ toString length ++ ".")

/-- Row-wise scan of `check_matrix`, carrying the current row index. -/
def matRows : List PyVal → Nat → Nat → Bool × String
  | [], _, _ => (true, "")
  | rw :: rest, rIdx, cols =>
    match rw with
    | PyVal.list cells =>
      if cells.length ≠ cols then
        (false, "Row " ++ toString rIdx ++ " must be a list with " ++ toString cols ++ " elements.")
      else
        match firstNonNumeric cells 0 with
        | some (cIdx, el) =>
          (false, "Non-numeric at (" ++ toString rIdx ++ "," ++ toString cIdx ++ "): " ++ pyRepr el)
        | Option.none => matRows rest (rIdx + 1) cols
    | _ =>
      (false, "Row " ++ toString rIdx ++ " must be a list with " ++ toString cols ++ " elements.")

/-- Source `check_matrix(mat, rows, cols)`: requires a list of `rows` rows,
each a list of `cols` numeric elements; reports the first offense. -/
def check_matrix (mat : PyVal) (rows cols : Nat) : Bool × String :=
  match mat with
  | PyVal.list rws =>
    if rws.length ≠ rows then
      (false, "Expected a list with " ++ toString rows ++ " rows.")
    else matRows rws 0 cols
  | _ => (false, "Expected a list with " ++ toString rows ++ " rows.")

/-- Binary operators in the expression AST (only `Add`/`Sub` can ever be
accepted by `literal_eval`, and only for the complex-literal form). -/
inductive BinOpKind where
  | add
  | sub
  | mult
  | div
deriving DecidableEq

/-- Unary operators in the expression AST. -/
inductive UnaryKind where
  | uadd
  | usub
  | notOp
  | invert
deriving DecidableEq

/-- Expression nodes of the Python AST fragment relevant to
`ast.literal_eval`: constants, the container literals, names, calls and
arithmetic.  `dictE` carries the keys and values as parallel lists, exactly
as `ast.Dict` does. -/
inductive LitExpr where
  | constInt : Int → LitExpr
  | constFloat : Rat → LitExpr
  | constComplex : Rat → Rat → LitExpr
  | constStr : String → LitExpr
  | constBool : Bool → LitExpr
  | constNone : LitExpr
  | listE : List LitExpr → LitExpr
  | tupleE : List LitExpr → LitExpr
  | setE : List LitExpr → LitExpr
  | dictE : List LitExpr → List LitExpr → LitExpr
  | nameE : String → LitExpr
  | callE : LitExpr → List LitExpr → LitExpr
  | binOp : LitExpr → BinOpKind → LitExpr → LitExpr
  | unaryOp : UnaryKind → LitExpr → LitExpr

/-- The `_convert_num` helper of `ast.literal_eval`: accepts exactly real or
complex numeric constants (booleans are excluded: `type(True)` is `bool`). -/
def convertNum : LitExpr → Option PyVal
  | LitExpr.constInt n => some (PyVal.int n)
  | LitExpr.constFloat q => some (PyVal.float q)
  | LitExpr.constComplex re im => some (PyVal.complex re im)
  | _ => Option.none

/-- Negation of a numeric `PyVal` (Python unary minus on int/float/complex). -/
def pyNegNum : PyVal → PyVal
  | PyVal.int n => PyVal.int (-n)
  | PyVal.float q => PyVal.float (-q)
  | PyVal.complex re im => PyVal.complex (-re) (-im)
  | v => v

/-- The `_convert_signed_num` helper of `ast.literal_eval`: an optional
single unary plus or minus applied directly to a numeric constant. -/
def convertSignedNum : LitExpr → Option PyVal
  | LitExpr.unaryOp UnaryKind.usub e => (convertNum e).map pyNegNum
  | LitExpr.unaryOp UnaryKind.uadd e => convertNum e
  | e => convertNum e

/-- Real value of an int or float (the `isinstance(left, (int, float))`
guard of the complex-literal branch); booleans never reach this point. -/
def numToRat : PyVal → Option Rat
  | PyVal.int n => some (n : Rat)
  | PyVal.float q => some q
  | _ => Option.none

mutual

/-- Hashability of a value, as required of Python dict keys and set
elements; an unhashable key makes `literal_eval` raise `TypeError`. -/
def isHashable : PyVal → Bool
  | PyVal.list _ => false
  | PyVal.set _ => false
  | PyVal.dict _ => false
  | PyVal.tuple xs => isHashableList xs
  | _ => true

/-- Hashability of every element of a list. -/
def isHashableList : List PyVal → Bool
  | [] => true
  | x :: xs => isHashable x && isHashableList xs

end

/-- Numeric value of a Python value under `==`: int, bool, float and complex
compare by numeric value (e.g. `1 == 1.0 == True` is false for `True` but
`1 == 1.0` holds; booleans equal their 0/1 value). -/
def pyNumVal : PyVal → Option (Rat × Rat)
  | PyVal.int n => some ((n : Rat), 0)
  | PyVal.bool b => some (if b then (1 : Rat) else 0, 0)
  | PyVal.float q => some (q, 0)
  | PyVal.complex re im => some (re, im)
  | _ => Option.none

mutual

/-- Python `==` restricted to hashable values, used for dict-key and
set-element identification when building containers. -/
def pyEqKey : PyVal → PyVal → Bool
  | a, b =>
    match pyNumVal a, pyNumVal b with
    | some x, some y => decide (x = y)
    | Option.none, Option.none =>
      match a, b with
      | PyVal.str s, PyVal.str t => decide (s = t)
      | PyVal.none, PyVal.none => true
      | PyVal.tuple xs, PyVal.tuple ys => pyEqKeyList xs ys
      | _, _ => false
    | _, _ => false

/-- Elementwise `==` on tuples. -/
def pyEqKeyList : List PyVal → List PyVal → Bool
  | [], [] => true
  | x :: xs, y :: ys => pyEqKey x y && pyEqKeyList xs ys
  | _, _ => false

end

/-- Insertion into a Python dict: an existing equal key keeps its original
position (and its original key object) and gets the new value; a new key is
appended. -/
def pyDictInsert : List (PyVal × PyVal) → PyVal → PyVal → List (PyVal × PyVal)
  | [], k, v => [(k, v)]
  | (k', v') :: rest, k, v =>
    if pyEqKey k' k then (k', v) :: rest else (k', v') :: pyDictInsert rest k v

/-- Builds a Python dict from a pair list (`dict(zip(ks, vs))`): later
bindings of an equal key overwrite earlier ones, keeping the key's first
position. -/
def pyDictOfPairs (pairs : List (PyVal × PyVal)) : List (PyVal × PyVal) :=
  pairs.foldl (fun acc kv => pyDictInsert acc kv.1 kv.2) []

/-- Insertion into a Python set: an element equal to an existing one is
dropped (first occurrence wins), otherwise appended. -/
def pySetInsert (xs : List PyVal) (x : PyVal) : List PyVal :=
  if xs.any (fun y => pyEqKey y x) then xs else xs ++ [x]

mutual

/-- The `_convert` body of `ast.literal_eval`: constants evaluate to
themselves; list/tuple/set/dict literals evaluate their parts (sets and dict
keys additionally require hashable values, or Python raises `TypeError`);
the call `set()` yields the empty set; a `BinOp` is accepted only in the
complex-literal form `real ± imaginary` (otherwise it falls through to
`_convert_signed_num`, which raises); everything else falls through to
`_convert_signed_num`.  `Option.none` models the raised exception. -/
def convert : LitExpr → Option PyVal
  | LitExpr.constInt n => some (PyVal.int n)
  | LitExpr.constFloat q => some (PyVal.float q)
  | LitExpr.constComplex re im => some (PyVal.complex re im)
  | LitExpr.constStr s => some (PyVal.str s)
  | LitExpr.constBool b => some (PyVal.bool b)
  | LitExpr.constNone => some PyVal.none
  | LitExpr.listE es => (convertList es).map PyVal.list
  | LitExpr.tupleE es => (convertList es).map PyVal.tuple
  | LitExpr.setE es =>
    match convertList es with
    | some vs =>
      if isHashableList vs then some (PyVal.set (vs.foldl pySetInsert []))
      else Option.none
    | Option.none => Option.none
  | LitExpr.dictE keys vals =>
    if keys.length ≠ vals.length then Option.none
    else
      match convertList keys, convertList vals with
      | some ks, some vs =>
        if isHashableList ks then some (PyVal.dict (pyDictOfPairs (ks.zip vs)))
        else Option.none
      | _, _ => Option.none
  | LitExpr.callE (LitExpr.nameE fn) [] =>
    if fn = "set" then some (PyVal.set []) else Option.none
  | LitExpr.binOp l k r =>
    if k = BinOpKind.add ∨ k = BinOpKind.sub then
      match convertSignedNum l, convertNum r with
      | some lv, some rv =>
        match numToRat lv, rv with
        | some lr, PyVal.complex re im =>
          if k = BinOpKind.add then some (PyVal.complex (lr + re) im)
          else some (PyVal.complex (lr - re) (-im))
        | _, _ => Option.none
      | _, _ => Option.none
    else Option.none
  | e => convertSignedNum e

/-- Evaluates every element of a literal list; any failing element aborts. -/
def convertList : List LitExpr → Option (List PyVal)
  | [] => some []
  | e :: es =>
    match convert e, convertList es with
    | some v, some vs => some (v :: vs)
    | _, _ => Option.none

end

/-- Assignment targets of the Python AST: a plain name, or the target forms
the checker skips (attributes, subscripts, tuple targets). -/
inductive Target where
  | name : String → Target
  | attributeT : Target
  | subscriptT : Target
  | tupleT : Target

/-- Top-level statements of a parsed module body.  Only `assign` with a
single `Target.name` target is examined by the checker; every other
statement kind is skipped. -/
inductive Stmt where
  | assign : List Target → LitExpr → Stmt
  | exprStmt : LitExpr → Stmt
  | impStmt : Stmt
  | ifStmt : Stmt
  | funcDef : Stmt

/-- The guard `isinstance(node, ast.Assign) and len(node.targets) == 1 and
isinstance(node.targets[0], ast.Name)`: the name and right-hand side of a
single-target name assignment, `Option.none` otherwise. -/
def stmtAssignTarget : Stmt → Option (String × LitExpr)
  | Stmt.assign [Target.name nm] e => some (nm, e)
  | _ => Option.none

/-- Holds when a statement is a single-target name assignment whose
right-hand side makes `ast.literal_eval` raise. -/
def isFailingAssign (s : Stmt) : Bool :=
  match stmtAssignTarget s with
  | some (_, e) => (convert e).isNone
  | Option.none => false

/-- The diagnostic produced when `ast.literal_eval` raises for variable
`name` (the source appends the exception text after the name). -/
def parseValueErr (name : String) : String :=
  "Could not parse value for " ++ name

/-- Lookup in the Assignment Map (Python `dict` with string keys). -/
def dictLookup : List (String × PyVal) → String → Option PyVal
  | [], _ => Option.none
  | (k, v) :: rest, key => if k = key then some v else dictLookup rest key

/-- Insertion into the Assignment Map: `out[name] = val` keeps an existing
key's position and replaces its value, otherwise appends. -/
def dictInsert : List (String × PyVal) → String → PyVal → List (String × PyVal)
  | [], key, val => [(key, val)]
  | (k, v) :: rest, key, val =>
    if k = key then (key, val) :: rest else (k, v) :: dictInsert rest key val

/-- The statement loop of `read_assignments_multiline`: single-target name
assignments are literal-evaluated into the map; a failing evaluation aborts
the whole parse, returning an empty map and the diagnostic; every other
statement is skipped. -/
def readLoop : List Stmt → List (String × PyVal) → List (String × PyVal) × Option String
  | [], out => (out, Option.none)
  | s :: rest, out =>
    match stmtAssignTarget s with
    | some (nm, e) =>
      match convert e with
      | some v => readLoop rest (dictInsert out nm v)
      | Option.none => ([], some (parseValueErr nm))
    | Option.none => readLoop rest out

/-- Source `read_assignments_multiline`, from the point where the file has
been read and parsed into a module body (the file-access and `ast.parse`
failures of lines 72–83 return `({}, error)` before this loop runs). -/
def read_assignments_multiline (body : List Stmt) : List (String × PyVal) × Option String :=
  readLoop body []

/-- The required config variables, in the order the source lists them. -/
def requiredConfig : List String :=
  ["r", "num_trainable_lora", "P", "num_trainable_soft", "d_a",
   "num_trainable_adapters", "num_trainable_ia3"]

/-- The required data variables, in the order the source lists them. -/
def requiredData : List String := ["b", "A", "B", "Wprime"]

/-- The missing-variable pass shared by both file checks: one
`Missing variable: k` per required name absent from the map, in order. -/
def missingErrors (required : List String) (vars : List (String × PyVal)) : List String :=
  (required.filter (fun k => (dictLookup vars k).isNone)).map
    (fun k => "Missing variable: " ++ k)

/-- Map access `vars_out[name]` at a point where the short-circuit on
missing variables guarantees presence (the default is never reached). -/
def getVar (vars : List (String × PyVal)) (name : String) : PyVal :=
  (dictLookup vars name).getD PyVal.none

/-- The `_assert_int_nonneg` closure of `check_peft_config`: a type error if
the value is not an `int` (booleans pass the `isinstance` test), otherwise a
sign error if it is negative, otherwise nothing. -/
def assertIntNonneg (vars : List (String × PyVal)) (name : String) : List String :=
  match dictLookup vars name with
  | some v =>
    if isinstance_int v = false then
      [name ++ " must be an integer (got " ++ typeName v ++ ")."]
    else if pyIntVal v < 0 then
      [name ++ " must be >= 0 (got " ++ pyStr v ++ ")."]
    else []
  | Option.none => []

/-- The evenness pass of `check_peft_config` for one of `r`, `P`, `d_a`:
fires only when the name is bound to an `int` (booleans included) whose
value is odd.  Python `%` on a positive modulus agrees with `Int.emod`. -/
def parityError (vars : List (String × PyVal)) (name : String) : List String :=
  match dictLookup vars name with
  | some v =>
    if isinstance_int v = true ∧ pyIntVal v % 2 ≠ 0 then
      [name ++ " must be even (got " ++ pyStr v ++ ")."]
    else []
  | Option.none => []

/-- Validation part of `check_peft_config` (lines 108–143): missing-variable
errors short-circuit; otherwise the seven type/sign checks run in the
source's loop order, followed by the three parity checks. -/
def check_peft_config_on (vars : List (String × PyVal)) : List String :=
  let missing := missingErrors requiredConfig vars
  if missing.isEmpty then
    assertIntNonneg vars "r" ++ assertIntNonneg vars "P" ++ assertIntNonneg vars "d_a" ++
    assertIntNonneg vars "num_trainable_lora" ++ assertIntNonneg vars "num_trainable_soft" ++
    assertIntNonneg vars "num_trainable_adapters" ++ assertIntNonneg vars "num_trainable_ia3" ++
    parityError vars "r" ++ parityError vars "P" ++ parityError vars "d_a"
  else missing

/-- Appends one prefixed error when a shape check fails (`if not ok:
errors.append(prefix + msg)`). -/
def failMsg (p : String) (res : Bool × String) : List String :=
  if res.1 then [] else [p ++ res.2]

/-- Validation part of `check_peft` (lines 158–186): missing-variable errors
short-circuit; otherwise the four shape checks run independently, each
contributing its own prefixed error. -/
def check_peft_on (vars : List (String × PyVal)) : List String :=
  let missing := missingErrors requiredData vars
  if missing.isEmpty then
    failMsg "b must be a numeric list of length 4: " (check_vector (getVar vars "b") 4) ++
    failMsg "A must be a 2x1 numeric matrix: " (check_matrix (getVar vars "A") 2 1) ++
    failMsg "B must be a 1x4 numeric matrix: " (check_matrix (getVar vars "B") 1 4) ++
    failMsg "Wprime must be a 2x4 numeric matrix: " (check_matrix (getVar vars "Wprime") 2 4)
  else missing

/-- Source `check_peft_config` on a parsed module body: a parse error is the
single returned diagnostic, otherwise the Assignment Map is validated. -/
def check_peft_config (body : List Stmt) : List String :=
  match read_assignments_multiline body with
  | (_, some err) => [err]
  | (vars, Option.none) => check_peft_config_on vars

/-- Source `check_peft` on a parsed module body: a parse error is the single
returned diagnostic, otherwise the Assignment Map is validated. -/
def check_peft (body : List Stmt) : List String :=
  match read_assignments_multiline body with
  | (_, some err) => [err]
  | (vars, Option.none) => check_peft_on vars

/-- A 2x4 `Wprime` value of correct shape containing the boolean `True`. -/
def wprimeWithBool : PyVal :=
  PyVal.list [PyVal.list [PyVal.int 1, PyVal.int 2, PyVal.int 3, PyVal.bool true],
              PyVal.list [PyVal.int 5, PyVal.int 6, PyVal.int 7, PyVal.int 8]]

/-- A complete data Assignment Map whose `Wprime` contains `True`. -/
def dataMapWithBool : List (String × PyVal) :=
  [("b", PyVal.list [PyVal.int 1, PyVal.int 2, PyVal.int 3, PyVal.int 4]),
   ("A", PyVal.list [PyVal.list [PyVal.int 1], PyVal.list [PyVal.int 2]]),
   ("B", PyVal.list [PyVal.list [PyVal.int 1, PyVal.int 2, PyVal.int 3, PyVal.int 4]]),
   ("Wprime", wprimeWithBool)]

/-- A well-formed config Assignment Map with the value of `r` left as a
parameter. -/
def configMapWithR (rv : PyVal) : List (String × PyVal) :=
  [("r", rv), ("num_trainable_lora", PyVal.int 8), ("P", PyVal.int 2),
   ("num_trainable_soft", PyVal.int 16), ("d_a", PyVal.int 6),
   ("num_trainable_adapters", PyVal.int 12), ("num_trainable_ia3", PyVal.int 0)]

/-- A well-formed data Assignment Map (the shapes of the spec's example). -/
def exampleDataMap : List (String × PyVal) :=
  [("b", PyVal.list [PyVal.float 1, PyVal.int 2, PyVal.float (7/2), PyVal.int (-4)]),
   ("A", PyVal.list [PyVal.list [PyVal.float (1/2)], PyVal.list [PyVal.float (1/4)]]),
   ("B", PyVal.list [PyVal.list [PyVal.int 1, PyVal.int 2, PyVal.int 3, PyVal.int 4]]),
   ("Wprime", PyVal.list [PyVal.list [PyVal.int 1, PyVal.int 2, PyVal.int 3, PyVal.int 4],
                          PyVal.list [PyVal.int 5, PyVal.int 6, PyVal.int 7, PyVal.int 8]])]

/-- The statement `r = 1 + 1`. -/
def stmtRonePlusOne : Stmt :=
  Stmt.assign [Target.name "r"]
    (LitExpr.binOp (LitExpr.constInt 1) BinOpKind.add (LitExpr.constInt 1))

/-- A body with a skipped import-like statement and two assignments to the
same name. -/
def stmtsLastWrite : List Stmt :=
  [Stmt.impStmt,
   Stmt.assign [Target.name "x"] (LitExpr.constInt 1),
   Stmt.assign [Target.name "x"] (LitExpr.constInt 2)]

/-- First-some choice on options, used to state last-write-wins. -/
def orOpt (a b : Option PyVal) : Option PyVal :=
  match a with
  | some v => some v
  | Option.none => b

/-- The name/value pair a statement contributes to the Assignment Map: only
a single-target name assignment whose right-hand side literal-evaluates. -/
def extractAssign (s : Stmt) : Option (String × PyVal) :=
  match stmtAssignTarget s with
  | some (nm, e) =>
    match convert e with
    | some v => some (nm, v)
    | Option.none => Option.none
  | Option.none => Option.none

/-- Value of the LAST successful single-name assignment to `nm` in the
body, if any (later statements take precedence). -/
def lastAssigned : List Stmt → String → Option PyVal
  | [], _ => Option.none
  | s :: rest, nm =>
    match lastAssigned rest nm with
    | some v => some v
    | Option.none =>
      match extractAssign s with
      | some p => if p.1 = nm then some p.2 else Option.none
      | Option.none => Option.none

/-- Key list of an Assignment Map, in stored order. -/
def mapKeys (d : List (String × PyVal)) : List String := d.map Prod.fst

/-- Names of the successfully evaluated single-name assignments of a body,
in the order encountered (with repetitions). -/
def assignedNames (body : List Stmt) : List String :=
  body.filterMap (fun s => (extractAssign s).map Prod.fst)

/-- First-occurrence deduplication, relative to an already-seen list. -/
def dedupFirstAux : List String → List String → List String
  | [], _ => []
  | x :: xs, seen =>
    if x ∈ seen then dedupFirstAux xs seen else x :: dedupFirstAux xs (x :: seen)

/-- First-occurrence deduplication of a name list. -/
def dedupFirst (l : List String) : List String := dedupFirstAux l []

theorem firstNonNumeric_none_iff (xs : List PyVal) :
    ∀ i, firstNonNumeric xs i = Option.none ↔ ∀ x ∈ xs, is_numeric x = true := by
  induction xs with
  | nil => intro i; simp [firstNonNumeric]
  | cons x xs ih =>
    intro i
    cases hx : is_numeric x with
    | true => simp [firstNonNumeric, hx, ih (i + 1)]
    | false =>
      simp [firstNonNumeric, hx]

theorem dictLookup_dictInsert (d : List (String × PyVal)) (key : String) (val : PyVal) :
    ∀ k2, dictLookup (dictInsert d key val) k2
      = if key = k2 then some val else dictLookup d k2 := by
  induction d with
  | nil => intro k2; simp [dictInsert, dictLookup]
  | cons p rest ih =>
    intro k2
    obtain ⟨k, v⟩ := p
    simp only [dictInsert]
    by_cases hk : k = key
    · rw [if_pos hk]
      simp only [dictLookup]
      by_cases h2 : key = k2
      · simp [h2]
      · have hk2 : ¬ k = k2 := fun h => h2 (hk.symm.trans h)
        simp [h2, hk2]
    · rw [if_neg hk]
      simp only [dictLookup]
      by_cases h2 : k = k2
      · have : ¬ key = k2 := fun h => hk (h2.trans h.symm)
        simp [h2, this]
      · simp [h2, ih k2]

theorem missingErrors_eq_nil (req : List String) (vars : List (String × PyVal))
    (h : ∀ k ∈ req, (dictLookup vars k).isSome = true) :
    missingErrors req vars = [] := by
  unfold missingErrors
  rw [List.map_eq_nil_iff, List.filter_eq_nil_iff]
  intro k hk
  have h2 := h k hk
  rw [Option.isSome_iff_exists] at h2
  obtain ⟨a, ha⟩ := h2
  simp [ha]

theorem assertIntNonneg_ok (vars : List (String × PyVal)) (name : String) (n : Int)
    (h : dictLookup vars name = some (PyVal.int n)) (hn : 0 ≤ n) :
    assertIntNonneg vars name = [] := by
  unfold assertIntNonneg
  rw [h]
  simp [isinstance_int, pyIntVal]
  omega

theorem assertIntNonneg_negative (vars : List (String × PyVal)) (name : String) (n : Int)
    (h : dictLookup vars name = some (PyVal.int n)) (hn : n < 0) :
    assertIntNonneg vars name = [name ++ " must be >= 0 (got " ++ toString n ++ ")."] := by
  unfold assertIntNonneg
  rw [h]
  simp [isinstance_int, pyIntVal, pyStr, pyRepr, hn]

theorem assertIntNonneg_notInt (vars : List (String × PyVal)) (name : String) (v : PyVal)
    (h : dictLookup vars name = some v) (hv : isinstance_int v = false) :
    assertIntNonneg vars name = [name ++ " must be an integer (got " ++ typeName v ++ ")."] := by
  unfold assertIntNonneg
  rw [h]
  simp [hv]

theorem parityError_even (vars : List (String × PyVal)) (name : String) (n : Int)
    (h : dictLookup vars name = some (PyVal.int n)) (hn : n % 2 = 0) :
    parityError vars name = [] := by
  unfold parityError
  rw [h]
  simp [isinstance_int, pyIntVal, hn]

theorem parityError_odd (vars : List (String × PyVal)) (name : String) (n : Int)
    (h : dictLookup vars name = some (PyVal.int n)) (hn : n % 2 ≠ 0) :
    parityError vars name = [name ++ " must be even (got " ++ toString n ++ ")."] := by
  unfold parityError
  rw [h]
  simp [isinstance_int, pyIntVal, hn, pyStr, pyRepr]

theorem parityError_notInt (vars : List (String × PyVal)) (name : String) (v : PyVal)
    (h : dictLookup vars name = some v) (hv : isinstance_int v = false) :
    parityError vars name = [] := by
  unfold parityError
  rw [h]
  simp [hv]

theorem isEmpty_false_of_mem {α : Type} {l : List α} {a : α} (h : a ∈ l) :
    l.isEmpty = false := by
  cases l with
  | nil => cases h
  | cons x xs => rfl

theorem readLoop_failing : ∀ (body : List Stmt) (out : List (String × PyVal)),
    (∃ s ∈ body, isFailingAssign s = true) →
    ∃ nm, (∃ s ∈ body, ∃ e, stmtAssignTarget s = some (nm, e) ∧ convert e = Option.none)
      ∧ readLoop body out = ([], some (parseValueErr nm)) := by
  intro body
  induction body with
  | nil =>
    intro out h
    obtain ⟨s, hs, _⟩ := h
    cases hs
  | cons s rest ih =>
    intro out h
    cases hst : stmtAssignTarget s with
    | some p =>
      obtain ⟨nm0, e0⟩ := p
      cases hc : convert e0 with
      | none =>
        refine ⟨nm0, ⟨s, List.mem_cons_self s rest, e0, hst, hc⟩, ?_⟩
        simp [readLoop, hst, hc]
      | some v =>
        have hrest : ∃ t ∈ rest, isFailingAssign t = true := by
          obtain ⟨t, ht, htf⟩ := h
          rcases List.mem_cons.mp ht with rfl | htr
          · simp [isFailingAssign, hst, hc] at htf
          · exact ⟨t, htr, htf⟩
        obtain ⟨nm, ⟨t, ht, e, hte, hce⟩, heq⟩ := ih (dictInsert out nm0 v) hrest
        exact ⟨nm, ⟨t, List.mem_cons_of_mem s ht, e, hte, hce⟩,
          by simp [readLoop, hst, hc, heq]⟩
    | none =>
      have hrest : ∃ t ∈ rest, isFailingAssign t = true := by
        obtain ⟨t, ht, htf⟩ := h
        rcases List.mem_cons.mp ht with rfl | htr
        · simp [isFailingAssign, hst] at htf
        · exact ⟨t, htr, htf⟩
      obtain ⟨nm, ⟨t, ht, e, hte, hce⟩, heq⟩ := ih out hrest
      exact ⟨nm, ⟨t, List.mem_cons_of_mem s ht, e, hte, hce⟩,
        by simp [readLoop, hst, heq]⟩

theorem readLoop_no_failing : ∀ (body : List Stmt),
    (∀ s ∈ body, isFailingAssign s = false) →
    ∀ out, ∃ m, readLoop body out = (m, Option.none)
      ∧ ∀ nm, dictLookup m nm = orOpt (lastAssigned body nm) (dictLookup out nm) := by
  intro body
  induction body with
  | nil =>
    intro _ out
    exact ⟨out, rfl, fun nm => by simp [lastAssigned, orOpt]⟩
  | cons s rest ih =>
    intro h out
    have hrest : ∀ t ∈ rest, isFailingAssign t = false :=
      fun t ht => h t (List.mem_cons_of_mem s ht)
    cases hst : stmtAssignTarget s with
    | none =>
      obtain ⟨m, hm, hl⟩ := ih hrest out
      refine ⟨m, by simp [readLoop, hst, hm], ?_⟩
      intro nm
      rw [hl nm]
      have hex : extractAssign s = Option.none := by simp [extractAssign, hst]
      cases hrc : lastAssigned rest nm <;> simp [lastAssigned, hrc, hex, orOpt]
    | some p =>
      obtain ⟨nm0, e0⟩ := p
      have hsf := h s (List.mem_cons_self s rest)
      cases hc : convert e0 with
      | none => simp [isFailingAssign, hst, hc] at hsf
      | some v =>
        obtain ⟨m, hm, hl⟩ := ih hrest (dictInsert out nm0 v)
        refine ⟨m, by simp [readLoop, hst, hc, hm], ?_⟩
        intro nm
        rw [hl nm, dictLookup_dictInsert out nm0 v nm]
        have hex : extractAssign s = some (nm0, v) := by simp [extractAssign, hst, hc]
        cases hrc : lastAssigned rest nm with
        | some w => simp [lastAssigned, hrc, orOpt]
        | none =>
          by_cases hnm : nm0 = nm <;>
            simp [lastAssigned, hrc, hex, orOpt, hnm]

theorem mapKeys_dictInsert : ∀ (d : List (String × PyVal)) (k : String) (v : PyVal),
    mapKeys (dictInsert d k v)
      = if k ∈ mapKeys d then mapKeys d else mapKeys d ++ [k] := by
  intro d k v
  induction d with
  | nil => simp [dictInsert, mapKeys]
  | cons p rest ih =>
    obtain ⟨k2, v2⟩ := p
    by_cases hk : k2 = k
    · subst hk
      simp [dictInsert, mapKeys]
    · have hne : ¬ k = k2 := fun h => hk h.symm
      simp only [dictInsert, if_neg hk, mapKeys, List.map_cons, List.mem_cons]
      simp only [mapKeys] at ih
      rw [ih]
      by_cases hm : k ∈ List.map Prod.fst rest
      · simp [hm, hne]
      · simp [hm, hne]

theorem dedupFirstAux_congr : ∀ (xs s1 s2 : List String),
    (∀ a, a ∈ s1 ↔ a ∈ s2) → dedupFirstAux xs s1 = dedupFirstAux xs s2 := by
  intro xs
  induction xs with
  | nil => intro s1 s2 _; rfl
  | cons x xs ih =>
    intro s1 s2 h
    by_cases hx : x ∈ s1
    · rw [dedupFirstAux, dedupFirstAux, if_pos hx, if_pos ((h x).mp hx)]
      exact ih s1 s2 h
    · rw [dedupFirstAux, dedupFirstAux, if_neg hx, if_neg (fun h2 => hx ((h x).mpr h2))]
      refine congrArg (x :: ·) (ih (x :: s1) (x :: s2) fun a => ?_)
      simp [h a]

theorem readLoop_keys : ∀ (body : List Stmt) (out : List (String × PyVal)),
    (∀ s ∈ body, isFailingAssign s = false) →
    mapKeys (readLoop body out).1
      = mapKeys out ++ dedupFirstAux (assignedNames body) (mapKeys out) := by
  intro body
  induction body with
  | nil => intro out _; simp [readLoop, assignedNames, dedupFirstAux]
  | cons s rest ih =>
    intro out h
    have hrest : ∀ t ∈ rest, isFailingAssign t = false :=
      fun t ht => h t (List.mem_cons_of_mem s ht)
    cases hst : stmtAssignTarget s with
    | none =>
      have hex : extractAssign s = Option.none := by simp [extractAssign, hst]
      have hnames : assignedNames (s :: rest) = assignedNames rest := by
        simp [assignedNames, hex]
      rw [show readLoop (s :: rest) out = readLoop rest out by simp [readLoop, hst],
          hnames]
      exact ih out hrest
    | some p =>
      obtain ⟨nm0, e0⟩ := p
      have hsf := h s (List.mem_cons_self s rest)
      cases hc : convert e0 with
      | none => simp [isFailingAssign, hst, hc] at hsf
      | some v =>
        have hex : extractAssign s = some (nm0, v) := by simp [extractAssign, hst, hc]
        have hnames : assignedNames (s :: rest) = nm0 :: assignedNames rest := by
          simp [assignedNames, hex]
        rw [show readLoop (s :: rest) out = readLoop rest (dictInsert out nm0 v)
              by simp [readLoop, hst, hc],
            hnames, ih (dictInsert out nm0 v) hrest, mapKeys_dictInsert]
        by_cases hm : nm0 ∈ mapKeys out
        · rw [if_pos hm, dedupFirstAux, if_pos hm]
        · rw [if_neg hm, dedupFirstAux, if_neg hm, List.append_assoc]
          refine congrArg (mapKeys out ++ ·) (congrArg (nm0 :: ·) ?_)
          exact dedupFirstAux_congr (assignedNames rest) (mapKeys out ++ [nm0])
            (nm0 :: mapKeys out) (fun a => by simp [or_comm])

/-- Claim C1 is false on the code: `is_numeric` is `isinstance(x, (int,
float))`, and Python's `bool` is a subclass of `int`, so the boolean `True`
passes the element check.  A correctly shaped 2x4 `Wprime` containing `True`
is accepted by `check_matrix` with no error, and the whole data map
validates cleanly, contradicting the claimed non-numeric-element report. -/
theorem C1_counterexample :
    is_numeric (PyVal.bool true) = true
    ∧ check_matrix wprimeWithBool 2 4 = (true, "")
    ∧ check_peft_on dataMapWithBool = [] :=
  ⟨rfl, rfl, rfl⟩

/-- Amended claim C1: boolean values ARE treated as numeric by the element
check (for every boolean `b`, `is_numeric` accepts it), so a `Wprime` matrix
of correct 2x4 shape with a `True` element passes `check_matrix` — and hence
`validateData` — without any error. -/
theorem C1_theorem :
    (∀ b : Bool, is_numeric (PyVal.bool b) = true)
    ∧ check_matrix wprimeWithBool 2 4 = (true, "")
    ∧ check_peft_on dataMapWithBool = [] :=
  ⟨fun _ => rfl, rfl, rfl⟩

/-- Claim C2 is false on the code: `ast.literal_eval` accepts every Python
literal form, so a top-level assignment whose right-hand side is the boolean
literal `True` is evaluated successfully and does appear as an entry of the
returned Assignment Map. -/
theorem C2_counterexample :
    read_assignments_multiline [Stmt.assign [Target.name "x"] (LitExpr.constBool true)]
      = ([("x", PyVal.bool true)], Option.none) := rfl

/-- Amended claim C2: the parser accepts any right-hand side that
`ast.literal_eval` accepts — including string, boolean, dict and set
literals, not only numbers and nested lists of numbers — and each such
assignment appears as an entry of the Assignment Map; only right-hand sides
that `literal_eval` rejects (names, calls, general arithmetic) are refused. -/
theorem C2_theorem : ∀ (nm s : String) (b : Bool),
    read_assignments_multiline [Stmt.assign [Target.name nm] (LitExpr.constBool b)]
      = ([(nm, PyVal.bool b)], Option.none)
    ∧ read_assignments_multiline [Stmt.assign [Target.name nm] (LitExpr.constStr s)]
      = ([(nm, PyVal.str s)], Option.none)
    ∧ read_assignments_multiline [Stmt.assign [Target.name nm] (LitExpr.dictE [] [])]
      = ([(nm, PyVal.dict [])], Option.none)
    ∧ read_assignments_multiline [Stmt.assign [Target.name nm] (LitExpr.setE [LitExpr.constInt 1])]
      = ([(nm, PyVal.set [PyVal.int 1])], Option.none)
    ∧ read_assignments_multiline [Stmt.assign [Target.name nm] (LitExpr.nameE "y")]
      = ([], some (parseValueErr nm)) :=
  fun _ _ _ => ⟨rfl, rfl, rfl, rfl, rfl⟩

/-- Claim C3: a source whose module body contains a top-level single-name
assignment whose right-hand side `ast.literal_eval` rejects makes the whole
parse fail: the result is the empty Assignment Map (no partial results)
together with a single diagnostic naming an offending variable. -/
theorem C3_theorem : ∀ body : List Stmt,
    (∃ s ∈ body, isFailingAssign s = true) →
    ∃ nm, (∃ s ∈ body, ∃ e, stmtAssignTarget s = some (nm, e) ∧ convert e = Option.none)
      ∧ read_assignments_multiline body = ([], some (parseValueErr nm)) :=
  fun body h => readLoop_failing body [] h

/-- Witness for C3: a file consisting of `r = 1 + 1` fails as a whole with
the literal-evaluation diagnostic naming `r`, not a computed value 2. -/
theorem C3_witness :
    read_assignments_multiline [stmtRonePlusOne] = ([], some (parseValueErr "r")) := by
  obtain ⟨nm, ⟨s, hs, e, hte, hce⟩, heq⟩ :=
    C3_theorem [stmtRonePlusOne] ⟨stmtRonePlusOne, List.mem_singleton.mpr rfl, rfl⟩
  rw [List.mem_singleton] at hs
  subst hs
  have h1 : nm = "r" := by
    rw [show stmtAssignTarget stmtRonePlusOne
        = some ("r", LitExpr.binOp (LitExpr.constInt 1) BinOpKind.add (LitExpr.constInt 1))
      from rfl] at hte
    exact ((Prod.mk.injEq _ _ _ _).mp (Option.some.inj hte)).1.symm
  rw [h1] at heq
  exact heq

/-- Claim C4: an Assignment Map missing at least one required variable makes
`validateConfig` (resp. `validateData`) return exactly the
`Missing variable: k` errors, one per absent required name in the required
order, and nothing else — the type/sign/parity/shape passes are
short-circuited. -/
theorem C4_theorem : ∀ vars : List (String × PyVal),
    ((∃ k ∈ requiredConfig, dictLookup vars k = Option.none) →
      check_peft_config_on vars
        = (requiredConfig.filter (fun k => (dictLookup vars k).isNone)).map
            (fun k => "Missing variable: " ++ k))
    ∧ ((∃ k ∈ requiredData, dictLookup vars k = Option.none) →
      check_peft_on vars
        = (requiredData.filter (fun k => (dictLookup vars k).isNone)).map
            (fun k => "Missing variable: " ++ k)) := by
  intro vars
  constructor
  · rintro ⟨k, hk, hnone⟩
    have hmem : ("Missing variable: " ++ k) ∈ missingErrors requiredConfig vars := by
      unfold missingErrors
      exact List.mem_map_of_mem _ (List.mem_filter.mpr ⟨hk, by simp [hnone]⟩)
    have hne := isEmpty_false_of_mem hmem
    simp only [check_peft_config_on, hne, Bool.false_eq_true, if_false]
    rfl
  · rintro ⟨k, hk, hnone⟩
    have hmem : ("Missing variable: " ++ k) ∈ missingErrors requiredData vars := by
      unfold missingErrors
      exact List.mem_map_of_mem _ (List.mem_filter.mpr ⟨hk, by simp [hnone]⟩)
    have hne := isEmpty_false_of_mem hmem
    simp only [check_peft_on, hne, Bool.false_eq_true, if_false]
    rfl

/-- Witness for C4: the empty Assignment Map is missing every required
variable of both schemas and receives exactly the missing-variable errors. -/
theorem C4_witness :
    check_peft_config_on []
      = (requiredConfig.filter (fun k => (dictLookup [] k).isNone)).map
          (fun k => "Missing variable: " ++ k)
    ∧ check_peft_on []
      = (requiredData.filter (fun k => (dictLookup [] k).isNone)).map
          (fun k => "Missing variable: " ++ k) :=
  ⟨(C4_theorem []).1 ⟨"r", by decide, rfl⟩, (C4_theorem []).2 ⟨"b", by decide, rfl⟩⟩

/-- Claim C5: a config Assignment Map binding all seven required variables
to non-negative integers, with `r`, `P` and `d_a` even, passes
`validateConfig` with no errors. -/
theorem C5_theorem : ∀ (vars : List (String × PyVal)) (r nl P ns da na ni : Int),
    dictLookup vars "r" = some (PyVal.int r) → 0 ≤ r → r % 2 = 0 →
    dictLookup vars "num_trainable_lora" = some (PyVal.int nl) → 0 ≤ nl →
    dictLookup vars "P" = some (PyVal.int P) → 0 ≤ P → P % 2 = 0 →
    dictLookup vars "num_trainable_soft" = some (PyVal.int ns) → 0 ≤ ns →
    dictLookup vars "d_a" = some (PyVal.int da) → 0 ≤ da → da % 2 = 0 →
    dictLookup vars "num_trainable_adapters" = some (PyVal.int na) → 0 ≤ na →
    dictLookup vars "num_trainable_ia3" = some (PyVal.int ni) → 0 ≤ ni →
    check_peft_config_on vars = [] := by
  intro vars r nl P ns da na ni hr hr0 hr2 hnl hnl0 hP hP0 hP2 hns hns0 hda hda0 hda2
    hna hna0 hni hni0
  have hmiss : missingErrors requiredConfig vars = [] := by
    apply missingErrors_eq_nil
    intro k hk
    simp only [requiredConfig, List.mem_cons, List.not_mem_nil, or_false] at hk
    rcases hk with rfl | rfl | rfl | rfl | rfl | rfl | rfl <;>
      simp [hr, hnl, hP, hns, hda, hna, hni]
  simp only [check_peft_config_on, hmiss, List.isEmpty_nil, if_true]
  rw [assertIntNonneg_ok vars "r" r hr hr0, assertIntNonneg_ok vars "P" P hP hP0,
      assertIntNonneg_ok vars "d_a" da hda hda0,
      assertIntNonneg_ok vars "num_trainable_lora" nl hnl hnl0,
      assertIntNonneg_ok vars "num_trainable_soft" ns hns hns0,
      assertIntNonneg_ok vars "num_trainable_adapters" na hna hna0,
      assertIntNonneg_ok vars "num_trainable_ia3" ni hni hni0,
      parityError_even vars "r" r hr hr2, parityError_even vars "P" P hP hP2,
      parityError_even vars "d_a" da hda hda2]
  rfl

/-- Witness for C5: the spec's example config values pass with no errors. -/
theorem C5_witness : check_peft_config_on (configMapWithR (PyVal.int 4)) = [] :=
  C5_theorem (configMapWithR (PyVal.int 4)) 4 8 2 16 6 12 0
    rfl (by decide) (by decide) rfl (by decide) rfl (by decide) (by decide)
    rfl (by decide) rfl (by decide) (by decide) rfl (by decide) rfl (by decide)

/-- Claim C6: parity and sign checks are independent.  With every other
required config variable valid, `r = 3` yields exactly one error — the
parity error naming `r` and the value 3 — and `r = -2` yields exactly the
non-negativity error for `r` and no parity error (−2 is even). -/
theorem C6_theorem :
    (∀ (vars : List (String × PyVal)) (nl P ns da na ni : Int),
      dictLookup vars "r" = some (PyVal.int 3) →
      dictLookup vars "num_trainable_lora" = some (PyVal.int nl) → 0 ≤ nl →
      dictLookup vars "P" = some (PyVal.int P) → 0 ≤ P → P % 2 = 0 →
      dictLookup vars "num_trainable_soft" = some (PyVal.int ns) → 0 ≤ ns →
      dictLookup vars "d_a" = some (PyVal.int da) → 0 ≤ da → da % 2 = 0 →
      dictLookup vars "num_trainable_adapters" = some (PyVal.int na) → 0 ≤ na →
      dictLookup vars "num_trainable_ia3" = some (PyVal.int ni) → 0 ≤ ni →
      check_peft_config_on vars = ["r must be even (got 3)."])
    ∧ (∀ (vars : List (String × PyVal)) (nl P ns da na ni : Int),
      dictLookup vars "r" = some (PyVal.int (-2)) →
      dictLookup vars "num_trainable_lora" = some (PyVal.int nl) → 0 ≤ nl →
      dictLookup vars "P" = some (PyVal.int P) → 0 ≤ P → P % 2 = 0 →
      dictLookup vars "num_trainable_soft" = some (PyVal.int ns) → 0 ≤ ns →
      dictLookup vars "d_a" = some (PyVal.int da) → 0 ≤ da → da % 2 = 0 →
      dictLookup vars "num_trainable_adapters" = some (PyVal.int na) → 0 ≤ na →
      dictLookup vars "num_trainable_ia3" = some (PyVal.int ni) → 0 ≤ ni →
      check_peft_config_on vars = ["r must be >= 0 (got -2)."]) := by
  constructor
  · intro vars nl P ns da na ni hr hnl hnl0 hP hP0 hP2 hns hns0 hda hda0 hda2
      hna hna0 hni hni0
    have hmiss : missingErrors requiredConfig vars = [] := by
      apply missingErrors_eq_nil
      intro k hk
      simp only [requiredConfig, List.mem_cons, List.not_mem_nil, or_false] at hk
      rcases hk with rfl | rfl | rfl | rfl | rfl | rfl | rfl <;>
        simp [hr, hnl, hP, hns, hda, hna, hni]
    simp only [check_peft_config_on, hmiss, List.isEmpty_nil, if_true]
    rw [assertIntNonneg_ok vars "r" 3 hr (by decide),
        assertIntNonneg_ok vars "P" P hP hP0,
        assertIntNonneg_ok vars "d_a" da hda hda0,
        assertIntNonneg_ok vars "num_trainable_lora" nl hnl hnl0,
        assertIntNonneg_ok vars "num_trainable_soft" ns hns hns0,
        assertIntNonneg_ok vars "num_trainable_adapters" na hna hna0,
        assertIntNonneg_ok vars "num_trainable_ia3" ni hni hni0,
        parityError_odd vars "r" 3 hr (by decide), parityError_even vars "P" P hP hP2,
        parityError_even vars "d_a" da hda hda2]
    rfl
  · intro vars nl P ns da na ni hr hnl hnl0 hP hP0 hP2 hns hns0 hda hda0 hda2
      hna hna0 hni hni0
    have hmiss : missingErrors requiredConfig vars = [] := by
      apply missingErrors_eq_nil
      intro k hk
      simp only [requiredConfig, List.mem_cons, List.not_mem_nil, or_false] at hk
      rcases hk with rfl | rfl | rfl | rfl | rfl | rfl | rfl <;>
        simp [hr, hnl, hP, hns, hda, hna, hni]
    simp only [check_peft_config_on, hmiss, List.isEmpty_nil, if_true]
    rw [assertIntNonneg_negative vars "r" (-2) hr (by decide),
        assertIntNonneg_ok vars "P" P hP hP0,
        assertIntNonneg_ok vars "d_a" da hda hda0,
        assertIntNonneg_ok vars "num_trainable_lora" nl hnl hnl0,
        assertIntNonneg_ok vars "num_trainable_soft" ns hns hns0,
        assertIntNonneg_ok vars "num_trainable_adapters" na hna hna0,
        assertIntNonneg_ok vars "num_trainable_ia3" ni hni hni0,
        parityError_even vars "r" (-2) hr (by decide), parityError_even vars "P" P hP hP2,
        parityError_even vars "d_a" da hda hda2]
    rfl

/-- Witness for C6: with the example values for the other six variables,
`r = 3` produces exactly the parity error and `r = -2` exactly the sign
error. -/
theorem C6_witness :
    check_peft_config_on (configMapWithR (PyVal.int 3)) = ["r must be even (got 3)."]
    ∧ check_peft_config_on (configMapWithR (PyVal.int (-2)))
        = ["r must be >= 0 (got -2)."] :=
  ⟨C6_theorem.1 (configMapWithR (PyVal.int 3)) 8 2 16 6 12 0
      rfl rfl (by decide) rfl (by decide) (by decide) rfl (by decide)
      rfl (by decide) (by decide) rfl (by decide) rfl (by decide),
   C6_theorem.2 (configMapWithR (PyVal.int (-2))) 8 2 16 6 12 0
      rfl rfl (by decide) rfl (by decide) (by decide) rfl (by decide)
      rfl (by decide) (by decide) rfl (by decide) rfl (by decide)⟩

/-- Claim C7: when all four required data variables are present,
`validateData` runs the four shape checks independently — the output is
exactly the concatenation of each check's own prefixed error contribution,
regardless of which others fail — and when all four succeed the result is
empty. -/
theorem C7_theorem : ∀ (vars : List (String × PyVal)) (vb va vB vw : PyVal),
    dictLookup vars "b" = some vb →
    dictLookup vars "A" = some va →
    dictLookup vars "B" = some vB →
    dictLookup vars "Wprime" = some vw →
    (check_peft_on vars
      = failMsg "b must be a numeric list of length 4: " (check_vector vb 4) ++
        failMsg "A must be a 2x1 numeric matrix: " (check_matrix va 2 1) ++
        failMsg "B must be a 1x4 numeric matrix: " (check_matrix vB 1 4) ++
        failMsg "Wprime must be a 2x4 numeric matrix: " (check_matrix vw 2 4))
    ∧ (check_vector vb 4 = (true, "") → check_matrix va 2 1 = (true, "") →
       check_matrix vB 1 4 = (true, "") → check_matrix vw 2 4 = (true, "") →
       check_peft_on vars = []) := by
  intro vars vb va vB vw hb hA hB hw
  have hmiss : missingErrors requiredData vars = [] := by
    apply missingErrors_eq_nil
    intro k hk
    simp only [requiredData, List.mem_cons, List.not_mem_nil, or_false] at hk
    rcases hk with rfl | rfl | rfl | rfl <;> simp [hb, hA, hB, hw]
  have hmain : check_peft_on vars
      = failMsg "b must be a numeric list of length 4: " (check_vector vb 4) ++
        failMsg "A must be a 2x1 numeric matrix: " (check_matrix va 2 1) ++
        failMsg "B must be a 1x4 numeric matrix: " (check_matrix vB 1 4) ++
        failMsg "Wprime must be a 2x4 numeric matrix: " (check_matrix vw 2 4) := by
    simp only [check_peft_on, hmiss, List.isEmpty_nil, if_true, getVar, hb, hA, hB, hw,
      Option.getD_some]
  refine ⟨hmain, ?_⟩
  intro h1 h2 h3 h4
  rw [hmain, h1, h2, h3, h4]
  rfl

/-- Witness for C7: the example data map has all four variables present and
correctly shaped, so `validateData` returns no errors. -/
theorem C7_witness : check_peft_on exampleDataMap = [] :=
  (C7_theorem exampleDataMap _ _ _ _ rfl rfl rfl rfl).2 rfl rfl rfl rfl

/-- Claim C8: `check_vector(v, L)` returns true with an empty message iff
`v` is a list of exactly `L` elements all numeric; otherwise it returns
false with a message naming either the shape violation or the zero-based
index and repr of the first non-numeric element; in particular
`b = [1, 2, 3]` yields the length error and `b = [1, "x", 3, 4]` yields the
non-numeric-element error at position 1. -/
theorem C8_theorem :
    (∀ (v : PyVal) (L : Nat), check_vector v L = (true, "") ↔
       ∃ xs, v = PyVal.list xs ∧ xs.length = L ∧ ∀ x ∈ xs, is_numeric x = true)
    ∧ (∀ (xs : List PyVal) (L i : Nat) (el : PyVal), xs.length = L →
       firstNonNumeric xs 0 = some (i, el) →
       check_vector (PyVal.list xs) L
         = (false, "Element at position " ++ toString i ++ " is not numeric: " ++ pyRepr el))
    ∧ (∀ (v : PyVal) (L : Nat), (∀ xs, v = PyVal.list xs → xs.length ≠ L) →
       check_vector v L = (false, "Expected a list of length " ++ toString L ++ "."))
    ∧ check_vector (PyVal.list [PyVal.int 1, PyVal.int 2, PyVal.int 3]) 4
        = (false, "Expected a list of length 4.")
    ∧ check_vector (PyVal.list [PyVal.int 1, PyVal.str "x", PyVal.int 3, PyVal.int 4]) 4
        = (false, "Element at position 1 is not numeric: " ++ pyRepr (PyVal.str "x")) := by
  refine ⟨?_, ?_, ?_, rfl, rfl⟩
  · intro v L
    constructor
    · intro h
      cases v with
      | list xs =>
        rw [check_vector] at h
        by_cases hl : xs.length = L
        · rw [if_neg (by simp [hl])] at h
          cases hfn : firstNonNumeric xs 0 with
          | some p =>
            obtain ⟨i, el⟩ := p
            rw [hfn] at h
            simp at h
          | none =>
            exact ⟨xs, rfl, hl, (firstNonNumeric_none_iff xs 0).mp hfn⟩
        · rw [if_pos hl] at h
          simp at h
      | int n => simp [check_vector] at h
      | bool b => simp [check_vector] at h
      | float q => simp [check_vector] at h
      | complex re im => simp [check_vector] at h
      | str s => simp [check_vector] at h
      | tuple xs => simp [check_vector] at h
      | set xs => simp [check_vector] at h
      | dict kvs => simp [check_vector] at h
      | none => simp [check_vector] at h
    · rintro ⟨xs, rfl, hl, hall⟩
      rw [check_vector, if_neg (by simp [hl]), (firstNonNumeric_none_iff xs 0).mpr hall]
  · intro xs L i el hl hfn
    rw [check_vector, if_neg (by simp [hl]), hfn]
  · intro v L h
    cases v with
    | list xs => rw [check_vector, if_pos (h xs rfl)]
    | int n => rfl
    | bool b => rfl
    | float q => rfl
    | complex re im => rfl
    | str s => rfl
    | tuple xs => rfl
    | set xs => rfl
    | dict kvs => rfl
    | none => rfl

/-- Witness for C8: the second clause applied to the concrete vector
`[1, "x", 3, 4]` with target length 4 produces the position-1 error. -/
theorem C8_witness :
    check_vector (PyVal.list [PyVal.int 1, PyVal.str "x", PyVal.int 3, PyVal.int 4]) 4
      = (false, "Element at position " ++ toString 1 ++ " is not numeric: "
          ++ pyRepr (PyVal.str "x")) :=
  C8_theorem.2.1 [PyVal.int 1, PyVal.str "x", PyVal.int 3, PyVal.int 4] 4 1
    (PyVal.str "x") rfl rfl

/-- Claim C9: every top-level statement that is not a single-name
assignment is silently skipped, contributing neither an entry nor an error;
and on a body with no failing assignment the parse succeeds, the resulting
Assignment Map has one entry per assigned name in the order first
encountered, and it binds each name to the value of the LAST successful
assignment to it (last-write-wins), with names never assigned absent from
the map. -/
theorem C9_theorem :
    (∀ (s : Stmt) (body : List Stmt), stmtAssignTarget s = Option.none →
      read_assignments_multiline (s :: body) = read_assignments_multiline body)
    ∧ (∀ body : List Stmt, (∀ s ∈ body, isFailingAssign s = false) →
      ∃ m, read_assignments_multiline body = (m, Option.none)
        ∧ mapKeys m = dedupFirst (assignedNames body)
        ∧ ∀ nm, dictLookup m nm = lastAssigned body nm) := by
  constructor
  · intro s body h
    simp [read_assignments_multiline, readLoop, h]
  · intro body h
    obtain ⟨m, hm, hl⟩ := readLoop_no_failing body h []
    have hk := readLoop_keys body [] h
    rw [hm] at hk
    refine ⟨m, hm, ?_, fun nm => ?_⟩
    · simpa [mapKeys, dedupFirst] using hk
    · rw [hl nm]
      cases lastAssigned body nm <;> simp [orOpt, dictLookup]

/-- Witness for C9: a non-assignment statement is a no-op for the parse,
and after `x = 1; x = 2` the map binds `x` to 2, the last value assigned. -/
theorem C9_witness :
    read_assignments_multiline [Stmt.impStmt] = read_assignments_multiline []
    ∧ dictLookup [("x", PyVal.int 2)] "x" = lastAssigned stmtsLastWrite "x" := by
  obtain ⟨m, hm, _, hl⟩ := C9_theorem.2 stmtsLastWrite (by decide)
  have hmv : m = [("x", PyVal.int 2)] := by
    have h2 : read_assignments_multiline stmtsLastWrite
        = ([("x", PyVal.int 2)], Option.none) := rfl
    rw [hm] at h2
    exact congrArg Prod.fst h2
  exact ⟨C9_theorem.1 Stmt.impStmt [] rfl, hmv ▸ hl "x"⟩

/-- Claim C10: for each required config variable at most one of the type and
sign errors is appended (the sign check runs only on integers), a
non-integer value also produces no parity error, and concretely a config
map with `r` bound to any float and all other variables valid yields
exactly the single type error for `r`. -/
theorem C10_theorem :
    (∀ (vars : List (String × PyVal)) (name : String),
      (assertIntNonneg vars name).length ≤ 1)
    ∧ (∀ (vars : List (String × PyVal)) (name : String) (v : PyVal),
      dictLookup vars name = some v → isinstance_int v = false →
      assertIntNonneg vars name
        = [name ++ " must be an integer (got " ++ typeName v ++ ")."]
      ∧ parityError vars name = [])
    ∧ (∀ (vars : List (String × PyVal)) (q : Rat) (nl P ns da na ni : Int),
      dictLookup vars "r" = some (PyVal.float q) →
      dictLookup vars "num_trainable_lora" = some (PyVal.int nl) → 0 ≤ nl →
      dictLookup vars "P" = some (PyVal.int P) → 0 ≤ P → P % 2 = 0 →
      dictLookup vars "num_trainable_soft" = some (PyVal.int ns) → 0 ≤ ns →
      dictLookup vars "d_a" = some (PyVal.int da) → 0 ≤ da → da % 2 = 0 →
      dictLookup vars "num_trainable_adapters" = some (PyVal.int na) → 0 ≤ na →
      dictLookup vars "num_trainable_ia3" = some (PyVal.int ni) → 0 ≤ ni →
      check_peft_config_on vars = ["r must be an integer (got float)."]) := by
  refine ⟨?_, ?_, ?_⟩
  · intro vars name
    unfold assertIntNonneg
    cases dictLookup vars name with
    | some v =>
      dsimp only
      split_ifs <;> simp
    | none => simp
  · intro vars name v h hv
    exact ⟨assertIntNonneg_notInt vars name v h hv, parityError_notInt vars name v h hv⟩
  · intro vars q nl P ns da na ni hr hnl hnl0 hP hP0 hP2 hns hns0 hda hda0 hda2
      hna hna0 hni hni0
    have hmiss : missingErrors requiredConfig vars = [] := by
      apply missingErrors_eq_nil
      intro k hk
      simp only [requiredConfig, List.mem_cons, List.not_mem_nil, or_false] at hk
      rcases hk with rfl | rfl | rfl | rfl | rfl | rfl | rfl <;>
        simp [hr, hnl, hP, hns, hda, hna, hni]
    simp only [check_peft_config_on, hmiss, List.isEmpty_nil, if_true]
    rw [assertIntNonneg_notInt vars "r" (PyVal.float q) hr rfl,
        assertIntNonneg_ok vars "P" P hP hP0,
        assertIntNonneg_ok vars "d_a" da hda hda0,
        assertIntNonneg_ok vars "num_trainable_lora" nl hnl hnl0,
        assertIntNonneg_ok vars "num_trainable_soft" ns hns hns0,
        assertIntNonneg_ok vars "num_trainable_adapters" na hna hna0,
        assertIntNonneg_ok vars "num_trainable_ia3" ni hni hni0,
        parityError_notInt vars "r" (PyVal.float q) hr rfl,
        parityError_even vars "P" P hP hP2,
        parityError_even vars "d_a" da hda hda2]
    rfl

/-- Witness for C10: `r = -3.5` with all other config variables valid
yields exactly the type error for `r`. -/
theorem C10_witness :
    check_peft_config_on (configMapWithR (PyVal.float (-(7/2))))
      = ["r must be an integer (got float)."] :=
  C10_theorem.2.2 (configMapWithR (PyVal.float (-(7/2)))) (-(7/2)) 8 2 16 6 12 0
    rfl rfl (by decide) rfl (by decide) (by decide) rfl (by decide)
    rfl (by decide) (by decide) rfl (by decide) rfl (by decide)
